import Mathlib

/-!
Verification development for the SimUci ICU simulation core.

The definitions below are a shallow embedding of the Python sources:
  - `src/uci/experiment.py` (`Experiment`, `single_run`, `multiple_replication`)
  - `src/uci/simulacion.py` (`Simulation.uci`)
  - `src/app.py` (the Wilcoxon and Friedman tab handlers)
  - `src/utils/constants/experiment.py` (`EXPERIMENT_VARIABLES_LABELS`)

Python `dict[str, int]` result containers are modelled as association
lists with insertion-order-preserving update (`dset`).  The process-wide
random source consumed by the duration sampler is modelled as an explicit
state of an abstract type `σ` threaded through every draw; machine
integers are `Int`/`Nat` (Python integers are unbounded, and every value
that flows through the simulator is integral).  Python `int(x / y)` on
exact integer data truncates toward zero, which is `Int.tdiv`.

The module `uci/distribuciones.py` (duration sampler, cluster classifier)
and `utils/helpers.py` (`adjust_df_sizes`, `fix_seed`) are not part of the
available sources; they are modelled from the specification where needed,
as documented on each such definition.
-/

/-- Labels of the five stage variables, from
`src/utils/constants/experiment.py` (`EXPERIMENT_VARIABLES_LABELS`). -/
def EXPERIMENT_VARIABLES_LABELS : List String :=
  ["Tiempo Pre VAM", "Tiempo VAM", "Tiempo Post VAM", "Estadia UCI", "Estadia Post UCI"]

/-- Python dict assignment `d[k] = v` on an insertion-ordered mapping:
if the key is present its value is replaced in place, otherwise the pair
is appended at the end. -/
def dset (d : List (String × Int)) (k : String) (v : Int) : List (String × Int) :=
  if (d.lookup k).isSome then
    d.map (fun p => if p.1 = k then (k, v) else p)
  else
    d ++ [(k, v)]

/-- Keys of a result mapping, in insertion order. -/
def dkeys (d : List (String × Int)) : List String :=
  d.map Prod.fst

/-- Patient-level parameters and mutable result container for one
simulation run (`Experiment.__init__` in `src/uci/experiment.py`). -/
structure Experiment where
  edad : Int
  diagn1 : Int
  diagn2 : Int
  diagn3 : Int
  diagn4 : Int
  apache : Int
  insuf_resp : Int
  va : Int
  estadia_uti : Int
  tiempo_vam : Int
  tiempo_pre_uti : Int
  porciento : Int
  result : List (String × Int)

/-- `Experiment.init_results_variables`: reset the result dict with
zeroes for every experiment variable. -/
def init_results_variables (e : Experiment) : Experiment :=
  { e with result := EXPERIMENT_VARIABLES_LABELS.map (fun v => (v, 0)) }

/-- Modelled from the spec: the module `uci/distribuciones.py` is not
among the available sources.  Per spec sections 4.1, 4.2 and 6, it exposes
one sampling operation per stage per cluster, each returning a
non-negative integer duration and consuming the process-wide random
source (modelled as an explicit state `σ`); a deterministic
nearest-centroid `clustering` function of the 11 patient covariates; and
the reseed operation `fix_seed` of the shared random source, whose result
state is a function of the seed alone. -/
structure Distribuciones (σ : Type) where
  tiemp_postUCI_cluster0 : σ → Nat × σ
  tiemp_postUCI_cluster1 : σ → Nat × σ
  estad_UTI_cluster0 : σ → Nat × σ
  estad_UTI_cluster1 : σ → Nat × σ
  tiemp_VAM_cluster0 : σ → Nat × σ
  tiemp_VAM_cluster1 : σ → Nat × σ
  clustering : Int → Int → Int → Int → Int → Int → Int → Int → Int → Int → Int → Nat
  fix_seed : Nat → σ

/-- The `for _ in range(1000): ... else: vam = uci` retry loop of
`Simulation.uci` (`src/uci/simulacion.py`, lines 35-42), with the
remaining attempt budget as fuel.  Returns the accepted (or clamped)
ventilation time, the random-source state after the loop, and the number
of draws actually made. -/
def vamLoop (draw : σ → Nat × σ) (uciStay : Nat) : Nat → σ → Nat × σ × Nat
  | 0, s => (uciStay, s, 0)
  | n + 1, s =>
    let d := draw s
    if d.1 ≤ uciStay then (d.1, d.2, 1)
    else
      let r := vamLoop draw uciStay n d.2
      (r.1, r.2.1, r.2.2 + 1)

/-- Value of the `i`-th successive draw from state `s`. -/
def drawSeq (draw : σ → Nat × σ) : σ → Nat → Nat
  | s, 0 => (draw s).1
  | s, n + 1 => drawSeq draw (draw s).2 n

/-- SimPy process object of `src/uci/simulacion.py`: the experiment and
the cluster id fixed at construction. -/
structure Simulation where
  experiment : Experiment
  cluster : Nat

/-- The sampling prefix of `Simulation.uci` (`src/uci/simulacion.py`,
lines 25-42): draw the post-ICU stay, then the ICU stay, then the
ventilation time under the 1000-attempt retry-then-clamp policy, in that
order, threading the random source.  Returns
`((post_uci, uciStay, vam), state after the draws)`. -/
def uci_draws (dist : Distribuciones σ) (cluster : Nat) (s : σ) : (Nat × Nat × Nat) × σ :=
  let is_cluster_zero : Bool := cluster == 0
  let dpost := if is_cluster_zero then dist.tiemp_postUCI_cluster0 s else dist.tiemp_postUCI_cluster1 s
  let duci := if is_cluster_zero then dist.estad_UTI_cluster0 dpost.2 else dist.estad_UTI_cluster1 dpost.2
  let dvam := vamLoop (if is_cluster_zero then dist.tiemp_VAM_cluster0 else dist.tiemp_VAM_cluster1) duci.1 1000 duci.2
  ((dpost.1, duci.1, dvam.1), dvam.2.1)

/-- `Simulation.uci` from `src/uci/simulacion.py`: make the three draws
of `uci_draws`, derive the pre- and post-ventilation times, and write the
five stage variables into the result dict of the experiment.  The trailing
`yield env.timeout(...)` statements only advance the simulated clock and
touch no value, so they have no counterpart here. -/
def Simulation.uci (dist : Distribuciones σ) (self : Simulation) (s : σ) : Experiment × σ :=
  let d := uci_draws dist self.cluster s
  let post_uci : Nat := d.1.1
  let uciStay : Nat := d.1.2.1
  let vam : Nat := d.1.2.2
  let pre_vam : Int := Int.tdiv (((uciStay : Int) - (vam : Int)) * self.experiment.porciento) 100
  let post_vam : Int := (uciStay : Int) - pre_vam - (vam : Int)
  let r :=
    dset (dset (dset (dset (dset self.experiment.result
      "Tiempo Pre VAM" pre_vam)
      "Tiempo VAM" (vam : Int))
      "Tiempo Post VAM" post_vam)
      "Estadia UCI" (uciStay : Int))
      "Estadia Post UCI" (post_uci : Int)
  ({ self.experiment with result := r }, d.2)

/-- Output of one `single_run`: the experiment after the run (its
`result` holds the replication values), the random-source state, and the
log of cluster-classifier invocations made (one entry per call, holding
the returned cluster id). -/
structure RunOut (σ : Type) where
  experiment : Experiment
  rng : σ
  clusterLog : List Nat

/-- `single_run` from `src/uci/experiment.py`: reset the result
variables, classify the patient into a cluster from its 11 covariates,
and run the simulation process to completion. -/
def single_run (dist : Distribuciones σ) (experiment : Experiment) (s : σ) : RunOut σ :=
  let e0 := init_results_variables experiment
  let cluster := dist.clustering e0.edad e0.diagn1 e0.diagn2 e0.diagn3 e0.diagn4
    e0.apache e0.insuf_resp e0.va e0.estadia_uti e0.tiempo_vam e0.tiempo_pre_uti
  let r := Simulation.uci dist { experiment := e0, cluster := cluster } s
  { experiment := r.1, rng := r.2, clusterLog := [cluster] }

/-- A raw Python value reaching the per-row coercion of
`multiple_replication`: either an integer (the only kind `single_run`
actually produces) or a value on which `float(...)` raises
`ValueError`/`TypeError`. -/
inductive PyVal where
  | int (n : Int)
  | nonNumeric
deriving DecidableEq

/-- Python `float(value)`: the exact value when it is numeric, `none`
when the conversion raises. -/
def float_of : PyVal → Option ℚ
  | .int n => some (n : ℚ)
  | .nonNumeric => none

/-- Python `int(q)` on an exact value: truncation toward zero. -/
def pyint (q : ℚ) : Int :=
  Int.tdiv q.num (q.den : Int)

/-- The per-value body of the row-building loop of
`multiple_replication`: `try: val = float(value) except: val = 0.0`
followed by `int(val) if as_int else val`. -/
def build_cell (as_int : Bool) (v : PyVal) : ℚ :=
  let val : ℚ := (float_of v).getD 0
  if as_int then ((pyint val : Int) : ℚ) else val

/-- The per-cell effect of the final dtype normalization of
`multiple_replication` (`fillna` then `pd.to_numeric` then
`astype("int64")`/`astype("float64")`): on the always-numeric,
never-missing cells the model produces, `int64` casting truncates toward
zero and `float64` casting is the identity. -/
def astype_cell (as_int : Bool) (q : ℚ) : ℚ :=
  if as_int then ((pyint q : Int) : ℚ) else q

/-- State assembled by the replication loop: the rows collected so far,
the threaded experiment and random source, and the concatenated
cluster-classifier invocation logs. -/
structure MRState (σ : Type) where
  rows : List (List (String × ℚ))
  experiment : Experiment
  rng : σ
  clusterLog : List Nat

/-- The `for _ in range(n_reps)` loop of `multiple_replication`: each
iteration executes `single_run` and builds one row from the raw result
dict via the per-value coercion. -/
def mr_loop (dist : Distribuciones σ) (as_int : Bool) : Nat → Experiment → σ → MRState σ
  | 0, e, s => { rows := [], experiment := e, rng := s, clusterLog := [] }
  | n + 1, e, s =>
    let o := single_run dist e s
    let row := o.experiment.result.map (fun kv => (kv.1, build_cell as_int (PyVal.int kv.2)))
    let rest := mr_loop dist as_int n o.experiment o.rng
    { rows := row :: rest.rows
      experiment := rest.experiment
      rng := rest.rng
      clusterLog := o.clusterLog ++ rest.clusterLog }

/-- `multiple_replication` from `src/uci/experiment.py`: run the
replication loop, then normalize every column to the single target dtype
(`int64` when `as_int`, `float64` otherwise). -/
def multiple_replication (dist : Distribuciones σ) (experiment : Experiment)
    (n_reps : Nat) (as_int : Bool) (s : σ) : MRState σ :=
  let L := mr_loop dist as_int n_reps experiment s
  { L with rows := L.rows.map (fun row => row.map (fun kv => (kv.1, astype_cell as_int kv.2))) }

/-- The fixed-seed replay scenario of spec section 6: engage fixed-seed
mode, run a batch, re-engage the same seed, and run a second identical
batch. -/
def fix_seed_session (dist : Distribuciones σ) (experiment : Experiment)
    (n_reps : Nat) (as_int : Bool) (seed : Nat) : MRState σ × MRState σ :=
  let o1 := multiple_replication dist experiment n_reps as_int (dist.fix_seed seed)
  let o2 := multiple_replication dist experiment n_reps as_int (dist.fix_seed seed)
  (o1, o2)

/-- Outcome of the Wilcoxon tab handler in `src/app.py`: the
empty-data warning, the identical-samples error (named
`DegenerateInput` in the spec), or a computed (statistic, p-value) pair. -/
inductive WilcoxonOutcome where
  | emptyWarning
  | degenerateError
  | tested (statistic p_value : ℚ)
deriving DecidableEq

/-- The Wilcoxon tab handler of `src/app.py` (comparison branch), over
the two selected columns: warn on empty data, reject identical samples,
head-truncate the longer sample to the length of the shorter, then run
the test.  The `Wilcoxon` class itself lives in the external
`simuci.stats` module and is passed in as the function `test`. -/
def wilcoxon_handler (test : List ℚ → List ℚ → ℚ × ℚ) (x y : List ℚ) : WilcoxonOutcome :=
  if x = [] ∨ y = [] then .emptyWarning
  else if x = y then .degenerateError
  else
    let x1 := if y.length < x.length then x.take y.length else x
    let y1 := if x.length < y.length then y.take x.length else y
    let r := test x1 y1
    .tested r.1 r.2

/-- Minimum sample length, `min(len(s) for s in samples)`; `0` on an
empty list of samples (the handler guards against that case). -/
def min_sample_len (dfs : List (List ℚ)) : Nat :=
  match dfs with
  | [] => 0
  | d :: rest => rest.foldl (fun m x => Nat.min m x.length) d.length

/-- Modelled from the spec: `adjust_df_sizes` lives in the external
`utils/helpers.py` module.  Per spec section 4.6, all samples are aligned
to the minimum common row count by head truncation and the minimum size
actually used is reported back to the caller; the caller in `src/app.py`
reads a reported size of `-1` as "no truncation was needed". -/
def adjust_df_sizes (dfs : List (List ℚ)) : List (List ℚ) × Int :=
  let m := min_sample_len dfs
  if dfs.all (fun d => d.length = m) then (dfs, -1)
  else (dfs.map (fun d => d.take m), (m : Int))

/-- Outcome of the Friedman tab handler in `src/app.py`: the no-data
warning, the fewer-than-three-samples warning (both are the rejection
named `InvalidInput` in the spec), the post-adjustment recheck error, or a run of
the test on the aligned samples together with the reported common
length. -/
inductive FriedmanOutcome where
  | noDataWarning
  | tooFewWarning
  | invalidAfterAdjust
  | tested (reported : Int) (samples : List (List ℚ))
deriving DecidableEq

/-- The Friedman tab handler of `src/app.py` (comparison branch), over
the selected column of each uploaded experiment: reject when no samples
or fewer than three samples are given, align the samples with
`adjust_df_sizes`, re-check the count, and run the test on the aligned
samples, reporting the common length used. -/
def friedman_handler (dfs : List (List ℚ)) : FriedmanOutcome :=
  if dfs.length = 0 then .noDataWarning
  else if ¬ 3 ≤ dfs.length then .tooFewWarning
  else
    let a := adjust_df_sizes dfs
    if a.1.length < 3 then .invalidAfterAdjust
    else .tested a.2 a.1

/-- A concrete duration sampler over the trivial random-source state,
used to evaluate the embedding at concrete inputs: post-ICU stays of 2,
ICU stays of 10, ventilation draws of 4, cluster 0 for every patient. -/
def constDist : Distribuciones Unit :=
  { tiemp_postUCI_cluster0 := fun s => (2, s)
    tiemp_postUCI_cluster1 := fun s => (2, s)
    estad_UTI_cluster0 := fun s => (10, s)
    estad_UTI_cluster1 := fun s => (10, s)
    tiemp_VAM_cluster0 := fun s => (4, s)
    tiemp_VAM_cluster1 := fun s => (4, s)
    clustering := fun _ _ _ _ _ _ _ _ _ _ _ => 0
    fix_seed := fun _ => () }

/-- A concrete patient configuration used to evaluate the embedding. -/
def sampleExperiment : Experiment :=
  { edad := 50, diagn1 := 1, diagn2 := 0, diagn3 := 0, diagn4 := 0
    apache := 10, insuf_resp := 1, va := 1, estadia_uti := 5
    tiempo_vam := 3, tiempo_pre_uti := 2, porciento := 10, result := [] }

theorem vamLoop_fst_le (draw : σ → Nat × σ) (u : Nat) : ∀ (n : Nat) (s : σ), (vamLoop draw u n s).1 ≤ u
  | 0, _ => le_refl u
  | n + 1, s => by
    simp only [vamLoop]
    split
    case isTrue h => exact h
    case isFalse h => exact vamLoop_fst_le draw u n (draw s).2

theorem vamLoop_count_le (draw : σ → Nat × σ) (u : Nat) : ∀ (n : Nat) (s : σ), (vamLoop draw u n s).2.2 ≤ n
  | 0, _ => le_refl 0
  | n + 1, s => by
    simp only [vamLoop]
    split
    case isTrue h => simp
    case isFalse h => simpa using vamLoop_count_le draw u n (draw s).2

theorem vamLoop_all_fail (draw : σ → Nat × σ) (u : Nat) :
    ∀ (n : Nat) (s : σ), (∀ i, i < n → u < drawSeq draw s i) →
      (vamLoop draw u n s).1 = u ∧ (vamLoop draw u n s).2.2 = n
  | 0, _, _ => ⟨rfl, rfl⟩
  | n + 1, s, h => by
    have h0 : u < (draw s).1 := h 0 (Nat.succ_pos n)
    have hrec := vamLoop_all_fail draw u n (draw s).2
      (fun i hi => h (i + 1) (Nat.succ_lt_succ hi))
    simp only [vamLoop]
    split
    case isTrue hle => omega
    case isFalse hle => simpa using hrec

theorem drawSeq_const {σ : Type} (v : Nat) (c : σ) : ∀ (s : σ) (i : Nat), drawSeq (fun _ => (v, c)) s i = v
  | _, 0 => rfl
  | _, i + 1 => drawSeq_const v c c i

theorem uci_draws_vam_le (dist : Distribuciones σ) (cluster : Nat) (s : σ) :
    (uci_draws dist cluster s).1.2.2 ≤ (uci_draws dist cluster s).1.2.1 := by
  simp only [uci_draws]
  exact vamLoop_fst_le _ _ 1000 _

theorem uci_init_result (dist : Distribuciones σ) (e : Experiment) (cluster : Nat) (s : σ) :
    ∃ u v pu : Nat, v ≤ u ∧
      (Simulation.uci dist ⟨init_results_variables e, cluster⟩ s).1.result =
        [("Tiempo Pre VAM", Int.tdiv (((u : Int) - (v : Int)) * e.porciento) 100),
         ("Tiempo VAM", (v : Int)),
         ("Tiempo Post VAM", (u : Int) - Int.tdiv (((u : Int) - (v : Int)) * e.porciento) 100 - (v : Int)),
         ("Estadia UCI", (u : Int)),
         ("Estadia Post UCI", (pu : Int))] := by
  refine ⟨(uci_draws dist cluster s).1.2.1, (uci_draws dist cluster s).1.2.2,
    (uci_draws dist cluster s).1.1, uci_draws_vam_le dist cluster s, ?_⟩
  simp [Simulation.uci, init_results_variables, dset, EXPERIMENT_VARIABLES_LABELS, List.lookup]

theorem tdiv_percent_nonneg (u v : Nat) (p : Int) (hv : v ≤ u) (h0 : 0 ≤ p) :
    0 ≤ Int.tdiv (((u : Int) - (v : Int)) * p) 100 := by
  have hd : (0 : Int) ≤ (u : Int) - v := by
    have := Int.ofNat_le.mpr hv
    omega
  exact Int.tdiv_nonneg (mul_nonneg hd h0) (by norm_num)

theorem tdiv_percent_le (u v : Nat) (p : Int) (hv : v ≤ u) (h0 : 0 ≤ p) (h1 : p ≤ 100) :
    Int.tdiv (((u : Int) - (v : Int)) * p) 100 ≤ (u : Int) - (v : Int) := by
  have hd : (0 : Int) ≤ (u : Int) - v := by
    have := Int.ofNat_le.mpr hv
    omega
  rw [Int.tdiv_eq_ediv (mul_nonneg hd h0) (by norm_num)]
  calc ((u : Int) - v) * p / 100 ≤ ((u : Int) - v) * 100 / 100 :=
        Int.ediv_le_ediv (by norm_num) (mul_le_mul_of_nonneg_left h1 hd)
    _ = (u : Int) - v := Int.mul_ediv_cancel _ (by norm_num)

/-- C1: every replication result of one run of the Stage Simulator
(`Simulation.uci`) satisfies `pre_vam + vam + post_vam = icu` exactly,
`vam <= icu`, and all five emitted values are non-negative, for every
patient configuration, cluster id, sampler and random-source state.  The
percent parameter is constrained to 0..100; its UI limits live in a
module outside the available sources and the spec calls it a percentage
parameter. -/
theorem C1_stage_simulator_invariants (dist : Distribuciones σ) (e : Experiment)
    (cluster : Nat) (s : σ) (h0 : 0 ≤ e.porciento) (h1 : e.porciento ≤ 100) :
    ∃ pre_vam vam post_vam uciStay post_uci : Int,
      (Simulation.uci dist ⟨init_results_variables e, cluster⟩ s).1.result =
        [("Tiempo Pre VAM", pre_vam), ("Tiempo VAM", vam), ("Tiempo Post VAM", post_vam),
         ("Estadia UCI", uciStay), ("Estadia Post UCI", post_uci)] ∧
      pre_vam + vam + post_vam = uciStay ∧ vam ≤ uciStay ∧
      0 ≤ pre_vam ∧ 0 ≤ vam ∧ 0 ≤ post_vam ∧ 0 ≤ uciStay ∧ 0 ≤ post_uci := by
  obtain ⟨u, v, pu, hvu, hres⟩ := uci_init_result dist e cluster s
  have hpre0 := tdiv_percent_nonneg u v e.porciento hvu h0
  have hprele := tdiv_percent_le u v e.porciento hvu h0 h1
  refine ⟨_, _, _, _, _, hres, by ring, ?_, hpre0, ?_, ?_, ?_, ?_⟩
  · exact_mod_cast hvu
  · exact Int.natCast_nonneg v
  · linarith
  · exact Int.natCast_nonneg u
  · exact Int.natCast_nonneg pu

/-- C3: in every Stage Simulator run the ventilation time is drawn at
most 1000 times (first conjunct) and the result never exceeds the ICU
stay; when every one of the 1000 possible draws exceeds the ICU stay,
the ventilation time is clamped to the ICU stay, exactly 1000 draws are
made, and the derived pre- and post-ventilation times are 0 for every
percent parameter.  The loop is a total function, so no error can be
raised from it. -/
theorem C3_vam_retry_clamp (draw : σ → Nat × σ) (uciStay : Nat) (s : σ) :
    ((vamLoop draw uciStay 1000 s).2.2 ≤ 1000 ∧ (vamLoop draw uciStay 1000 s).1 ≤ uciStay) ∧
    ((∀ i, i < 1000 → uciStay < drawSeq draw s i) →
      (vamLoop draw uciStay 1000 s).1 = uciStay ∧
      (vamLoop draw uciStay 1000 s).2.2 = 1000 ∧
      ∀ p : Int,
        Int.tdiv (((uciStay : Int) - ((vamLoop draw uciStay 1000 s).1 : Int)) * p) 100 = 0 ∧
        (uciStay : Int)
          - Int.tdiv (((uciStay : Int) - ((vamLoop draw uciStay 1000 s).1 : Int)) * p) 100
          - ((vamLoop draw uciStay 1000 s).1 : Int) = 0) := by
  refine ⟨⟨vamLoop_count_le draw uciStay 1000 s, vamLoop_fst_le draw uciStay 1000 s⟩, fun h => ?_⟩
  obtain ⟨h1, h2⟩ := vamLoop_all_fail draw uciStay 1000 s h
  refine ⟨h1, h2, fun p => ?_⟩
  rw [h1]
  simp

theorem tdiv_eq_fdiv_of_nonneg (a : Int) (ha : 0 ≤ a) : Int.tdiv a 100 = Int.fdiv a 100 := by
  rw [Int.tdiv_eq_ediv ha (by norm_num), Int.fdiv_eq_ediv _ (by norm_num)]

/-- C4: once the ICU stay `u` and ventilation time `v <= u` are fixed,
the pre-ventilation time equals `floor((u - v) * percent / 100)`
(floor division `Int.fdiv`) and the post-ventilation time equals
`u - pre_vam - v`, for every non-negative percent parameter.  For a
negative percent the source computes a toward-zero truncation instead of
a floor, but the percent parameter is a UI-bounded percentage. -/
theorem C4_pre_post_formulas (dist : Distribuciones σ) (e : Experiment)
    (cluster : Nat) (s : σ) (h0 : 0 ≤ e.porciento) :
    ∃ (u v : Nat) (pre_vam post_vam post_uci : Int),
      (Simulation.uci dist ⟨init_results_variables e, cluster⟩ s).1.result =
        [("Tiempo Pre VAM", pre_vam), ("Tiempo VAM", (v : Int)), ("Tiempo Post VAM", post_vam),
         ("Estadia UCI", (u : Int)), ("Estadia Post UCI", post_uci)] ∧
      v ≤ u ∧
      pre_vam = Int.fdiv (((u : Int) - (v : Int)) * e.porciento) 100 ∧
      post_vam = (u : Int) - pre_vam - (v : Int) := by
  obtain ⟨u, v, pu, hvu, hres⟩ := uci_init_result dist e cluster s
  have hd : (0 : Int) ≤ (u : Int) - v := by
    have := Int.ofNat_le.mpr hvu
    omega
  refine ⟨u, v, _, _, _, hres, hvu, ?_, rfl⟩
  exact tdiv_eq_fdiv_of_nonneg _ (mul_nonneg hd h0)

theorem single_run_experiment_eq (dist : Distribuciones σ) (e : Experiment) (s : σ) :
    (single_run dist e s).experiment = { e with result := (single_run dist e s).experiment.result } := rfl

theorem mr_loop_experiment_eq (dist : Distribuciones σ) (b : Bool) :
    ∀ (n : Nat) (e : Experiment) (s : σ),
      (mr_loop dist b n e s).experiment = { e with result := (mr_loop dist b n e s).experiment.result }
  | 0, _, _ => rfl
  | n + 1, e, s => by
    have ih := mr_loop_experiment_eq dist b n (single_run dist e s).experiment (single_run dist e s).rng
    show (mr_loop dist b n (single_run dist e s).experiment (single_run dist e s).rng).experiment =
      { e with result :=
        (mr_loop dist b n (single_run dist e s).experiment (single_run dist e s).rng).experiment.result }
    rw [ih]
    rfl

theorem mr_loop_clusterLog (dist : Distribuciones σ) (b : Bool) :
    ∀ (n : Nat) (e : Experiment) (s : σ),
      (mr_loop dist b n e s).clusterLog =
        List.replicate n (dist.clustering e.edad e.diagn1 e.diagn2 e.diagn3 e.diagn4
          e.apache e.insuf_resp e.va e.estadia_uti e.tiempo_vam e.tiempo_pre_uti)
  | 0, _, _ => rfl
  | n + 1, e, s => by
    have ih := mr_loop_clusterLog dist b n (single_run dist e s).experiment (single_run dist e s).rng
    show (single_run dist e s).clusterLog
        ++ (mr_loop dist b n (single_run dist e s).experiment (single_run dist e s).rng).clusterLog = _
    rw [ih]
    rfl

/-- C2 counterexample: a batch of 2 replications invokes the cluster
classifier twice, not exactly once per batch: `multiple_replication`
calls `single_run` per replication and `single_run` calls
`distribuciones.clustering` on every call. -/
theorem C2_counterexample :
    (multiple_replication constDist sampleExperiment 2 true ()).clusterLog.length = 2 ∧
    (multiple_replication constDist sampleExperiment 2 true ()).clusterLog.length ≠ 1 := by
  constructor <;> decide

/-- C2 amended: `multiple_replication` invokes the cluster classifier
once per run, hence `n` times per batch, and every invocation returns
the same cluster id, computed from the unchanged patient covariates, so
the cluster id used is fixed for the patient across all runs. -/
theorem C2_cluster_fixed_across_runs (dist : Distribuciones σ) (e : Experiment)
    (n : Nat) (b : Bool) (s : σ) :
    (multiple_replication dist e n b s).clusterLog =
      List.replicate n (dist.clustering e.edad e.diagn1 e.diagn2 e.diagn3 e.diagn4
        e.apache e.insuf_resp e.va e.estadia_uti e.tiempo_vam e.tiempo_pre_uti) :=
  mr_loop_clusterLog dist b n e s

/-- C5: with the random source in fixed-seed mode, two calls of
`multiple_replication` with identical patient configuration, run count
and seed produce identical replication tables: after reseeding, the
whole batch is a deterministic function of the seed. -/
theorem C5_fixed_seed_reproducibility (dist : Distribuciones σ) (e : Experiment)
    (n : Nat) (b : Bool) (seed : Nat) :
    (fix_seed_session dist e n b seed).1.rows = (fix_seed_session dist e n b seed).2.rows := rfl

theorem mr_loop_rows_length (dist : Distribuciones σ) (b : Bool) :
    ∀ (n : Nat) (e : Experiment) (s : σ), (mr_loop dist b n e s).rows.length = n
  | 0, _, _ => rfl
  | n + 1, e, s => by
    show (mr_loop dist b n (single_run dist e s).experiment (single_run dist e s).rng).rows.length + 1 = n + 1
    rw [mr_loop_rows_length dist b n]

/-- C6: for every patient configuration and requested replication count
`n >= 1`, the table returned by `multiple_replication` has exactly `n`
rows; no row is dropped. -/
theorem C6_row_count (dist : Distribuciones σ) (e : Experiment) (n : Nat) (b : Bool) (s : σ)
    (hn : 1 ≤ n) :
    (multiple_replication dist e n b s).rows.length = n := by
  simp [multiple_replication, mr_loop_rows_length]

theorem single_run_keys (dist : Distribuciones σ) (e : Experiment) (s : σ) :
    dkeys (single_run dist e s).experiment.result = EXPERIMENT_VARIABLES_LABELS := by
  obtain ⟨u, v, pu, hvu, hres⟩ := uci_init_result dist e
    (dist.clustering e.edad e.diagn1 e.diagn2 e.diagn3 e.diagn4 e.apache e.insuf_resp e.va
      e.estadia_uti e.tiempo_vam e.tiempo_pre_uti) s
  rw [show (single_run dist e s).experiment.result =
      (Simulation.uci dist ⟨init_results_variables e,
        dist.clustering e.edad e.diagn1 e.diagn2 e.diagn3 e.diagn4 e.apache e.insuf_resp e.va
          e.estadia_uti e.tiempo_vam e.tiempo_pre_uti⟩ s).1.result from rfl, hres]
  rfl

theorem mr_loop_zero_experiment (dist : Distribuciones σ) (b : Bool) (e : Experiment) (s : σ) :
    (mr_loop dist b 0 e s).experiment = e := rfl

theorem mr_loop_succ_experiment (dist : Distribuciones σ) (b : Bool) (n : Nat) (e : Experiment) (s : σ) :
    (mr_loop dist b (n + 1) e s).experiment =
      (mr_loop dist b n (single_run dist e s).experiment (single_run dist e s).rng).experiment := rfl

theorem mr_loop_keys (dist : Distribuciones σ) (b : Bool) :
    ∀ (n : Nat) (e : Experiment) (s : σ),
      dkeys (mr_loop dist b (n + 1) e s).experiment.result = EXPERIMENT_VARIABLES_LABELS
  | 0, e, s => by
    rw [mr_loop_succ_experiment, mr_loop_zero_experiment]
    exact single_run_keys dist e s
  | n + 1, e, s => by
    rw [mr_loop_succ_experiment]
    exact mr_loop_keys dist b n (single_run dist e s).experiment (single_run dist e s).rng

/-- C10: `single_run` and `multiple_replication` leave every
patient-configuration field of the experiment unchanged (only the
`result` mapping differs from the input experiment), and after a run the
result mapping holds exactly the five stage-variable keys. -/
theorem C10_frame_and_result_keys (dist : Distribuciones σ) (e : Experiment) (s : σ)
    (n : Nat) (b : Bool) (hn : 1 ≤ n) :
    (single_run dist e s).experiment = { e with result := (single_run dist e s).experiment.result } ∧
    dkeys (single_run dist e s).experiment.result = EXPERIMENT_VARIABLES_LABELS ∧
    (multiple_replication dist e n b s).experiment =
      { e with result := (multiple_replication dist e n b s).experiment.result } ∧
    dkeys (multiple_replication dist e n b s).experiment.result = EXPERIMENT_VARIABLES_LABELS := by
  refine ⟨single_run_experiment_eq dist e s, single_run_keys dist e s, ?_, ?_⟩
  · exact mr_loop_experiment_eq dist b n e s
  · cases n with
    | zero => exact absurd hn (by decide)
    | succ m => exact mr_loop_keys dist b m e s

/-- C7: in the row assembly of `multiple_replication`, a per-value
coercion failure is replaced with 0 for either dtype mode instead of
failing the batch; after assembly, with `as_int` every cell of the
returned table is integer-valued (uniform int64 column dtype), and
without `as_int` the dtype normalization keeps every cell as the
unchanged float value (uniform float64). -/
theorem C7_coercion_and_dtype :
    (∀ v : PyVal, float_of v = none → ∀ b : Bool, build_cell b v = 0) ∧
    (∀ (σ : Type) (dist : Distribuciones σ) (e : Experiment) (n : Nat) (s : σ)
      (row : List (String × ℚ)) (kv : String × ℚ),
      row ∈ (multiple_replication dist e n true s).rows → kv ∈ row → (kv.2).den = 1) ∧
    (∀ q : ℚ, astype_cell false q = q) := by
  refine ⟨?_, ?_, fun q => rfl⟩
  · intro v hv b
    cases b <;> simp [build_cell, hv, pyint]
  · intro σ dist e n s row kv hrow hkv
    simp only [multiple_replication, List.mem_map] at hrow
    obtain ⟨r0, hr0, rfl⟩ := hrow
    simp only [List.mem_map] at hkv
    obtain ⟨kv0, hkv0, rfl⟩ := hkv
    simp [astype_cell, Rat.den_intCast]

/-- C8: the Wilcoxon handler rejects with the degenerate-input error,
rather than computing a (statistic, p-value) pair, whenever the two
samples are identical vectors of any length at least 1. -/
theorem C8_wilcoxon_identical_rejected (test : List ℚ → List ℚ → ℚ × ℚ) (x : List ℚ)
    (hx : x ≠ []) :
    wilcoxon_handler test x x = WilcoxonOutcome.degenerateError := by
  unfold wilcoxon_handler
  rw [if_neg (by simpa using hx), if_pos rfl]

theorem foldl_min_le_init : ∀ (l : List (List ℚ)) (a : Nat),
    l.foldl (fun m x => Nat.min m x.length) a ≤ a
  | [], a => le_refl a
  | x :: xs, a =>
    le_trans (foldl_min_le_init xs (Nat.min a x.length)) (Nat.min_le_left a x.length)

theorem foldl_min_le_mem : ∀ (l : List (List ℚ)) (a : Nat) (d : List ℚ), d ∈ l →
    l.foldl (fun m x => Nat.min m x.length) a ≤ d.length
  | x :: xs, a, d, hmem => by
    rcases List.mem_cons.mp hmem with h | h
    · subst h
      exact le_trans (foldl_min_le_init xs (Nat.min a d.length)) (Nat.min_le_right a d.length)
    · exact foldl_min_le_mem xs (Nat.min a x.length) d h

theorem foldl_min_eq_or : ∀ (l : List (List ℚ)) (a : Nat),
    l.foldl (fun m x => Nat.min m x.length) a = a ∨
    ∃ d ∈ l, l.foldl (fun m x => Nat.min m x.length) a = d.length
  | [], _ => Or.inl rfl
  | x :: xs, a => by
    simp only [List.foldl_cons]
    rcases foldl_min_eq_or xs (Nat.min a x.length) with h | ⟨d, hd, h⟩
    · rcases Nat.le_total a x.length with hle | hle
      · left
        rw [h]
        exact Nat.min_eq_left hle
      · right
        exact ⟨x, List.mem_cons_self x xs, by rw [h]; exact Nat.min_eq_right hle⟩
    · right
      exact ⟨d, List.mem_cons_of_mem x hd, h⟩

theorem min_sample_len_le (dfs : List (List ℚ)) (d : List ℚ) (hd : d ∈ dfs) :
    min_sample_len dfs ≤ d.length := by
  match dfs, hd with
  | x :: xs, hd =>
    rcases List.mem_cons.mp hd with h | h
    · subst h
      exact foldl_min_le_init xs d.length
    · exact foldl_min_le_mem xs x.length d h

theorem min_sample_len_mem (dfs : List (List ℚ)) (h : dfs ≠ []) :
    ∃ d ∈ dfs, d.length = min_sample_len dfs := by
  match dfs with
  | x :: xs =>
    rcases foldl_min_eq_or xs x.length with h1 | ⟨d, hd, h1⟩
    · exact ⟨x, List.mem_cons_self x xs, by simp [min_sample_len, h1]⟩
    · exact ⟨d, List.mem_cons_of_mem x hd, by simp [min_sample_len, h1]⟩

/-- C9: the Friedman handler rejects when given 2 or fewer samples;
given at least 3 samples of differing lengths it head-truncates every
sample to the minimum common row count `m` before testing and reports
`m`, which is exactly the minimum of the input sample lengths. -/
theorem C9_friedman_guard_and_truncation (dfs : List (List ℚ)) :
    (dfs.length ≤ 2 →
      friedman_handler dfs = FriedmanOutcome.noDataWarning ∨
      friedman_handler dfs = FriedmanOutcome.tooFewWarning) ∧
    (3 ≤ dfs.length →
      (∃ d1 ∈ dfs, ∃ d2 ∈ dfs, d1.length ≠ d2.length) →
      ∃ m : Nat,
        friedman_handler dfs = FriedmanOutcome.tested (m : Int) (dfs.map (fun d => d.take m)) ∧
        (∀ d ∈ dfs, m ≤ d.length) ∧ (∃ d ∈ dfs, d.length = m)) := by
  constructor
  · intro hle
    by_cases h0 : dfs.length = 0
    · left
      unfold friedman_handler
      rw [if_pos h0]
    · right
      unfold friedman_handler
      rw [if_neg h0, if_pos (by omega)]
  · rintro h3 ⟨d1, hd1, d2, hd2, hne⟩
    have hall : ¬ (dfs.all (fun d => decide (d.length = min_sample_len dfs)) = true) := by
      intro hall
      rw [List.all_eq_true] at hall
      have e1 := of_decide_eq_true (hall d1 hd1)
      have e2 := of_decide_eq_true (hall d2 hd2)
      exact hne (e1.trans e2.symm)
    refine ⟨min_sample_len dfs, ?_, fun d hd => min_sample_len_le dfs d hd,
      min_sample_len_mem dfs (by intro hemp; rw [hemp] at h3; simp at h3)⟩
    simp only [friedman_handler, adjust_df_sizes]
    rw [if_neg (by omega), if_neg (by omega), if_neg hall,
      if_neg (by rw [List.length_map]; omega)]

theorem C1_witness :
    ∃ pre_vam vam post_vam uciStay post_uci : Int,
      (Simulation.uci constDist ⟨init_results_variables sampleExperiment, 0⟩ ()).1.result =
        [("Tiempo Pre VAM", pre_vam), ("Tiempo VAM", vam), ("Tiempo Post VAM", post_vam),
         ("Estadia UCI", uciStay), ("Estadia Post UCI", post_uci)] ∧
      pre_vam + vam + post_vam = uciStay ∧ vam ≤ uciStay ∧
      0 ≤ pre_vam ∧ 0 ≤ vam ∧ 0 ≤ post_vam ∧ 0 ≤ uciStay ∧ 0 ≤ post_uci :=
  C1_stage_simulator_invariants constDist sampleExperiment 0 () (by decide) (by decide)

theorem C3_witness :
    (vamLoop (fun _ => ((5 : Nat), ())) 3 1000 ()).1 = 3 ∧
    (vamLoop (fun _ => ((5 : Nat), ())) 3 1000 ()).2.2 = 1000 ∧
    Int.tdiv ((((3 : Nat) : Int) - ((vamLoop (fun _ => ((5 : Nat), ())) 3 1000 ()).1 : Int)) * 7) 100 = 0 ∧
    ((3 : Nat) : Int)
      - Int.tdiv ((((3 : Nat) : Int) - ((vamLoop (fun _ => ((5 : Nat), ())) 3 1000 ()).1 : Int)) * 7) 100
      - ((vamLoop (fun _ => ((5 : Nat), ())) 3 1000 ()).1 : Int) = 0 := by
  have h := (C3_vam_retry_clamp (fun _ => ((5 : Nat), ())) 3 ()).2
    (fun i _ => by rw [drawSeq_const]; omega)
  exact ⟨h.1, h.2.1, (h.2.2 7).1, (h.2.2 7).2⟩

theorem C4_witness :
    ∃ (u v : Nat) (pre_vam post_vam post_uci : Int),
      (Simulation.uci constDist ⟨init_results_variables sampleExperiment, 0⟩ ()).1.result =
        [("Tiempo Pre VAM", pre_vam), ("Tiempo VAM", (v : Int)), ("Tiempo Post VAM", post_vam),
         ("Estadia UCI", (u : Int)), ("Estadia Post UCI", post_uci)] ∧
      v ≤ u ∧
      pre_vam = Int.fdiv (((u : Int) - (v : Int)) * sampleExperiment.porciento) 100 ∧
      post_vam = (u : Int) - pre_vam - (v : Int) :=
  C4_pre_post_formulas constDist sampleExperiment 0 () (by decide)

theorem C6_witness :
    (multiple_replication constDist sampleExperiment 3 true ()).rows.length = 3 :=
  C6_row_count constDist sampleExperiment 3 true () (by decide)

theorem C7_witness :
    build_cell true PyVal.nonNumeric = 0 ∧
    ((("Tiempo VAM", (4 : ℚ)) : String × ℚ).2).den = 1 ∧
    astype_cell false ((5 : ℚ) / 2) = (5 : ℚ) / 2 := by
  refine ⟨C7_coercion_and_dtype.1 PyVal.nonNumeric rfl true, ?_, C7_coercion_and_dtype.2.2 _⟩
  exact C7_coercion_and_dtype.2.1 Unit constDist sampleExperiment 1 ()
    [("Tiempo Pre VAM", (0 : ℚ)), ("Tiempo VAM", 4), ("Tiempo Post VAM", 6),
     ("Estadia UCI", 10), ("Estadia Post UCI", 2)]
    ("Tiempo VAM", 4) (by decide) (by decide)

theorem C8_witness :
    wilcoxon_handler (fun _ _ => ((0 : ℚ), (0 : ℚ))) [(1 : ℚ)] [(1 : ℚ)] =
      WilcoxonOutcome.degenerateError :=
  C8_wilcoxon_identical_rejected (fun _ _ => ((0 : ℚ), (0 : ℚ))) [(1 : ℚ)] (by decide)

theorem C9_witness :
    ∃ m : Nat,
      friedman_handler [[(1 : ℚ)], [1, 2], [1, 2, 3]] =
        FriedmanOutcome.tested (m : Int) ([[(1 : ℚ)], [1, 2], [1, 2, 3]].map (fun d => d.take m)) ∧
      (∀ d ∈ [[(1 : ℚ)], [1, 2], [1, 2, 3]], m ≤ d.length) ∧
      (∃ d ∈ [[(1 : ℚ)], [1, 2], [1, 2, 3]], d.length = m) :=
  (C9_friedman_guard_and_truncation [[(1 : ℚ)], [1, 2], [1, 2, 3]]).2 (by decide)
    ⟨[(1 : ℚ)], by decide, [1, 2], by decide, by decide⟩

theorem C10_witness :
    (single_run constDist sampleExperiment ()).experiment =
      { sampleExperiment with
        result := (single_run constDist sampleExperiment ()).experiment.result } ∧
    dkeys (single_run constDist sampleExperiment ()).experiment.result
      = EXPERIMENT_VARIABLES_LABELS ∧
    (multiple_replication constDist sampleExperiment 1 true ()).experiment =
      { sampleExperiment with
        result := (multiple_replication constDist sampleExperiment 1 true ()).experiment.result } ∧
    dkeys (multiple_replication constDist sampleExperiment 1 true ()).experiment.result
      = EXPERIMENT_VARIABLES_LABELS :=
  C10_frame_and_result_keys constDist sampleExperiment () 1 true (by decide)
